import Mathlib

/-!
Shallow embedding of the FAST data-coherence engine (`src/Data/Image2D.cpp`)
and the Gaussian smoothing pipeline stage (`GaussianSmoothingFilter.cpp`).

`boost::unordered_map<OpenCLDevice::pointer, T>` is modelled as an
association list `List (Nat × T)` (devices are identified by `Nat`);
`operator[]` insertion/update is `minsert`, `count(k) > 0` is
`(mlookup m k).isSome`, and iteration order is list order.
Exceptions are modelled by returning the state as mutated up to the throw
point together with an `Option` error code.
-/

namespace FAST

/-- Lookup in an association list (`unordered_map::find` / `count`). -/
def mlookup {β : Type} (m : List (Nat × β)) (k : Nat) : Option β :=
  match m with
  | [] => none
  | (k₁, v) :: t => if k₁ = k then some v else mlookup t k

/-- `operator[]` assignment: update the first binding of `k`, or append one. -/
def minsert {β : Type} (m : List (Nat × β)) (k : Nat) (v : β) : List (Nat × β) :=
  match m with
  | [] => [(k, v)]
  | (k₁, v₁) :: t => if k₁ = k then (k, v) :: t else (k₁, v₁) :: minsert t k v

/-- Set every value in the map to `v` (the invalidation loop). -/
def msetAll {β : Type} (m : List (Nat × β)) (v : β) : List (Nat × β) :=
  m.map (fun p => (p.1, v))

/-- Does any binding hold `true`? (the `for`-loops scanning for a flag). -/
def manyTrue (m : List (Nat × Bool)) : Bool :=
  m.any (fun p => p.2)

/-- First key bound to `true` in iteration order (the source-location scan). -/
def mfindTrue (m : List (Nat × Bool)) : Option Nat :=
  (m.find? (fun p => p.2)).map (fun p => p.1)

/-- The element types of the fixed `DataType` enumeration. -/
inductive DataType
  | tFloat
  | tUint8
  | tInt8
  | tUint16
  | tInt16
deriving DecidableEq, Repr

/-- `accessType` from the access controller. -/
inductive AccessType
  | read
  | readWrite
deriving DecidableEq, Repr

/-- Errors thrown by the coherence engine (`throw Exception(...)` sites). -/
inductive AccessErr
  | concurrentAccessViolation
  | coherenceViolation
  | alreadyInitialized
deriving DecidableEq, Repr

/-- Device transfer commands.  `writeImage d` is
`transferCLImageFromHost` (host → device `d`); `readImage d` is
`transferCLImageToHost` (device `d` → host). -/
inductive TransferEv
  | writeImage (d : Nat)
  | readImage (d : Nat)
deriving DecidableEq, Repr

/-- The coherence-relevant state of one `Image2D`.  `clImages` holds, per
device, whether the stored `cl::Image2D*` is a real allocation (`true`) or a
default-inserted null pointer (`false`). -/
structure Image2D where
  width : Nat
  height : Nat
  dims : Nat
  dtype : DataType
  components : Nat
  hostHasData : Bool
  hostDataIsUpToDate : Bool
  hostDataIsBeingAccessed : Bool
  clImages : List (Nat × Bool)
  clImagesIsUpToDate : List (Nat × Bool)
  clImagesAccess : List (Nat × Bool)
deriving DecidableEq, Repr

/-- The `Image2D()` constructor. -/
def imageNew : Image2D :=
  { width := 0, height := 0, dims := 2, dtype := DataType.tFloat, components := 0
    hostHasData := false, hostDataIsUpToDate := false
    hostDataIsBeingAccessed := false
    clImages := [], clImagesIsUpToDate := [], clImagesAccess := [] }

/-- `Image2D::isInitialized`. -/
def isInitialized (s : Image2D) : Bool :=
  !s.clImages.isEmpty || s.hostHasData

/-- `Image2D::isAnyDataBeingAccessed`. -/
def isAnyDataBeingAccessed (s : Image2D) : Bool :=
  s.hostDataIsBeingAccessed || manyTrue s.clImagesAccess

/-- `Image2D::setAllDataToOutOfDate`. -/
def setAllDataToOutOfDate (s : Image2D) : Image2D :=
  { s with hostDataIsUpToDate := false
           clImagesIsUpToDate := msetAll s.clImagesIsUpToDate false }

/-- `Image2D::updateOpenCLImageData(device)`.  Returns the state as mutated
up to a possible throw, the transfer commands issued, and the error. -/
def updateOpenCLImageData (d : Nat) (s : Image2D) :
    Image2D × List TransferEv × Option AccessErr :=
  if mlookup s.clImagesIsUpToDate d = some true then (s, [], none)
  else
    let s₁ :=
      if (mlookup s.clImagesIsUpToDate d).isNone then
        { s with clImages := minsert s.clImages d true
                 clImagesIsUpToDate := minsert s.clImagesIsUpToDate d true
                 clImagesAccess := minsert s.clImagesAccess d true }
      else s
    if s₁.hostDataIsUpToDate then (s₁, [TransferEv.writeImage d], none)
    else
      match mfindTrue s₁.clImagesIsUpToDate with
      | some src =>
          ({ s₁ with hostDataIsUpToDate := true },
           [TransferEv.readImage src, TransferEv.writeImage d], none)
      | none => (s₁, [], some AccessErr.coherenceViolation)

/-- `Image2D::updateHostData()`. -/
def updateHostData (s : Image2D) : Image2D × List TransferEv × Option AccessErr :=
  if s.hostDataIsUpToDate then (s, [], none)
  else
    let s₁ := if !s.hostHasData then { s with hostHasData := true } else s
    if !s₁.clImages.isEmpty then
      match mfindTrue s₁.clImagesIsUpToDate with
      | some src => (s₁, [TransferEv.readImage src], none)
      | none => (s₁, [], some AccessErr.coherenceViolation)
    else (s₁, [], none)

/-- The scoped accessor returned by `getOpenCLImageAccess`: `imageValid`
records whether the handed-out `cl::Image2D*` is a real allocation. -/
structure OpenCLImageAccess2D where
  imageValid : Bool
deriving DecidableEq, Repr

/-- The scoped accessor returned by `getImageAccess`. -/
structure ImageAccess2D where
  hostPtrValid : Bool
deriving DecidableEq, Repr

/-- The tail of `Image2D::getOpenCLImageAccess` shared by both access
modes: set the access flag, update the device data, then hand out
`mCLImages[device]` (whose `operator[]` default-inserts a null pointer). -/
def openCLAccessCore (d : Nat) (s : Image2D) :
    Image2D × Option OpenCLImageAccess2D × List TransferEv × Option AccessErr :=
  let s₁ := { s with clImagesAccess := minsert s.clImagesAccess d true }
  match updateOpenCLImageData d s₁ with
  | (s₂, evs, some e) => (s₂, none, evs, some e)
  | (s₂, evs, none) =>
      match mlookup s₂.clImages d with
      | some img => (s₂, some { imageValid := img }, evs, none)
      | none =>
          ({ s₂ with clImages := minsert s₂.clImages d false },
           some { imageValid := false }, evs, none)

/-- `Image2D::getOpenCLImageAccess(type, device)`. -/
def getOpenCLImageAccess (t : AccessType) (d : Nat) (s : Image2D) :
    Image2D × Option OpenCLImageAccess2D × List TransferEv × Option AccessErr :=
  match t with
  | AccessType.readWrite =>
      if isAnyDataBeingAccessed s then
        (s, none, [], some AccessErr.concurrentAccessViolation)
      else
        let s₁ := setAllDataToOutOfDate s
        let s₂ := { s₁ with clImagesIsUpToDate := minsert s₁.clImagesIsUpToDate d true }
        openCLAccessCore d s₂
  | AccessType.read => openCLAccessCore d s

/-- The tail of `Image2D::getImageAccess`: update host data and hand out
`mHostData`. -/
def hostAccessCore (s : Image2D) :
    Image2D × Option ImageAccess2D × List TransferEv × Option AccessErr :=
  match updateHostData s with
  | (s₁, evs, some e) => (s₁, none, evs, some e)
  | (s₁, evs, none) => (s₁, some { hostPtrValid := s₁.hostHasData }, evs, none)

/-- `Image2D::getImageAccess(type)`. -/
def getImageAccess (t : AccessType) (s : Image2D) :
    Image2D × Option ImageAccess2D × List TransferEv × Option AccessErr :=
  match t with
  | AccessType.readWrite =>
      if isAnyDataBeingAccessed s then
        (s, none, [], some AccessErr.concurrentAccessViolation)
      else
        let s₁ := setAllDataToOutOfDate s
        let s₂ := { s₁ with hostDataIsUpToDate := true, hostDataIsBeingAccessed := true }
        hostAccessCore s₂
  | AccessType.read => hostAccessCore s

/-- `Image2D::createImage(width, height, type, nrOfComponents, device)`
(the overload without initial data).  `isHost` is `device->isHost()`;
`d` identifies the OpenCL device otherwise. -/
def createImage (w h : Nat) (ty : DataType) (n : Nat) (isHost : Bool) (d : Nat)
    (s : Image2D) : Image2D × Option AccessErr :=
  if isInitialized s then (s, some AccessErr.alreadyInitialized)
  else
    let s₁ := { s with width := w, height := h, dtype := ty, components := n }
    if isHost then ({ s₁ with hostHasData := true }, none)
    else
      ({ s₁ with clImages := minsert s₁.clImages d true
                 clImagesIsUpToDate := minsert s₁.clImagesIsUpToDate d true
                 clImagesAccess := minsert s₁.clImagesAccess d false }, none)

/-- `Image2D::createImage(..., const void* data)` (the overload with
initial data). -/
def createImageWithData (w h : Nat) (ty : DataType) (n : Nat) (isHost : Bool)
    (d : Nat) (s : Image2D) : Image2D × Option AccessErr :=
  if isInitialized s then (s, some AccessErr.alreadyInitialized)
  else
    let s₁ := { s with width := w, height := h, dtype := ty, components := n }
    if isHost then
      ({ s₁ with hostHasData := true, hostDataIsUpToDate := true }, none)
    else
      ({ s₁ with clImages := minsert s₁.clImages d true
                 clImagesIsUpToDate := minsert s₁.clImagesIsUpToDate d true
                 clImagesAccess := minsert s₁.clImagesAccess d false }, none)

/-- Modelled from the spec: the scoped accessor destructors
(`ImageAccess2D` / `OpenCLImageAccess2D`, whose bodies are not in the
sample) clear the `locked` (being-accessed) flag they were given and leave
`upToDate` as last set. -/
def releaseHostAccess (s : Image2D) : Image2D :=
  { s with hostDataIsBeingAccessed := false }

/-- Modelled from the spec: release of a device accessor clears that
device's access flag. -/
def releaseCLAccess (d : Nat) (s : Image2D) : Image2D :=
  { s with clImagesAccess := minsert s.clImagesAccess d false }

/-- One step of the access/release protocol on an image. -/
inductive CoherenceOp
  | hostAcquire (t : AccessType)
  | clAcquire (t : AccessType) (d : Nat)
  | hostRelease
  | clRelease (d : Nat)
deriving DecidableEq, Repr

/-- Apply one protocol step; a thrown exception leaves the state as mutated
up to the throw point. -/
def stepOp (op : CoherenceOp) (s : Image2D) : Image2D :=
  match op with
  | CoherenceOp.hostAcquire t => (getImageAccess t s).1
  | CoherenceOp.clAcquire t d => (getOpenCLImageAccess t d s).1
  | CoherenceOp.hostRelease => releaseHostAccess s
  | CoherenceOp.clRelease d => releaseCLAccess d s

/-- Run a finite sequence of protocol steps. -/
def runOps (ops : List CoherenceOp) (s : Image2D) : Image2D :=
  ops.foldl (fun s op => stepOp op s) s

/-- The set of up-to-date locations is nonempty. -/
def hasUpToDate (s : Image2D) : Bool :=
  s.hostDataIsUpToDate || manyTrue s.clImagesIsUpToDate

/-- Errors thrown by the smoothing stage. -/
inductive FilterErr
  | invalidParameter
  | missingInput
deriving DecidableEq, Repr

/-- The state of a `GaussianSmoothingFilter`.  `outputAlive` records whether
the weak reference `mOutput` still resolves (somebody retains the output);
`tempOutputValid` whether the strongly held `mTempOutput` has not yet been
handed over by `getOutput`.  `typeCLCodeCompiledFor` is uninitialized in the
source; `dimensionCLCodeCompiledFor = 0` guards its first comparison, so an
arbitrary initial value is used.  `outWidth`/`outHeight` record the shape
the output image was last created with. -/
structure GaussianSmoothingFilter where
  inputValid : Bool
  inputIsDynamic : Bool
  outputAlive : Bool
  tempOutputValid : Bool
  isModified : Bool
  recreateMask : Bool
  maskSize : Nat
  stdDev : ℚ
  deviceIsHost : Bool
  dimensionCLCodeCompiledFor : Nat
  typeCLCodeCompiledFor : DataType
  maskComputedFor : Option (Nat × ℚ × Nat)
  inputRetained : Bool
  outWidth : Nat
  outHeight : Nat
deriving DecidableEq, Repr

/-- The `GaussianSmoothingFilter()` constructor; `isHost` is whether the
default computation device returned by the `DeviceManager` is the host. -/
def filterNew (isHost : Bool) : GaussianSmoothingFilter :=
  { inputValid := false, inputIsDynamic := false, outputAlive := false
    tempOutputValid := false, isModified := true, recreateMask := true
    maskSize := 3, stdDev := 1, deviceIsHost := isHost
    dimensionCLCodeCompiledFor := 0, typeCLCodeCompiledFor := DataType.tFloat
    maskComputedFor := none, inputRetained := false
    outWidth := 0, outHeight := 0 }

/-- `GaussianSmoothingFilter::setInput`: bind the input, mark modified,
create a fresh output placeholder (strongly held, so the weak `mOutput`
resolves), and retain a static input on the device. -/
def setInput (isDynamic : Bool) (f : GaussianSmoothingFilter) :
    GaussianSmoothingFilter :=
  { f with inputValid := true, inputIsDynamic := isDynamic, isModified := true
           tempOutputValid := true, outputAlive := true
           inputRetained := if isDynamic then f.inputRetained else true }

/-- `GaussianSmoothingFilter::setDevice`. -/
def setDevice (isHost : Bool) (f : GaussianSmoothingFilter) :
    GaussianSmoothingFilter :=
  { f with deviceIsHost := isHost, isModified := true, recreateMask := true }

/-- `GaussianSmoothingFilter::setMaskSize` (the argument is an
`unsigned char`). -/
def setMaskSize (n : Nat) (f : GaussianSmoothingFilter) :
    GaussianSmoothingFilter × Option FilterErr :=
  if n % 2 ≠ 1 then (f, some FilterErr.invalidParameter)
  else ({ f with maskSize := n, isModified := true, recreateMask := true }, none)

/-- `GaussianSmoothingFilter::setStandardDeviation` (float arithmetic
modelled over `ℚ`). -/
def setStandardDeviation (v : ℚ) (f : GaussianSmoothingFilter) :
    GaussianSmoothingFilter × Option FilterErr :=
  if v ≤ 0 then (f, some FilterErr.invalidParameter)
  else ({ f with stdDev := v, isModified := true, recreateMask := true }, none)

/-- What `getOutput` hands back: the freshly created placeholder with single
ownership, the weak reference resolved to a live object, or the weak
reference resolved to an invalid (null) pointer. -/
inductive OutputHandle
  | ownedNew
  | weakValid
  | weakInvalid
deriving DecidableEq, Repr

/-- `GaussianSmoothingFilter::getOutput`. -/
def getOutput (f : GaussianSmoothingFilter) :
    GaussianSmoothingFilter × Option OutputHandle × Option FilterErr :=
  if !f.inputValid then (f, none, some FilterErr.missingInput)
  else if f.tempOutputValid then
    ({ f with tempOutputValid := false }, some OutputHandle.ownedNew, none)
  else
    (f, some (if f.outputAlive then OutputHandle.weakValid
              else OutputHandle.weakInvalid), none)

/-- `GaussianSmoothingFilter::createMask(input)` at the cache level: a no-op
unless `mRecreateMask` is set; otherwise recompute the mask from the current
parameters and the input dimensionality and clear the flag as the last
step.  The returned `Bool` records whether a recompute happened. -/
def createMask (inputDims : Nat) (f : GaussianSmoothingFilter) :
    GaussianSmoothingFilter × Bool :=
  if !f.recreateMask then (f, false)
  else
    ({ f with maskComputedFor := some (f.maskSize, f.stdDev, inputDims)
              recreateMask := false }, true)

/-- `GaussianSmoothingFilter::recompileOpenCLCode(input)`: a no-op when the
input's dimensionality and data type match the last-compiled signature;
otherwise compile and record the new signature.  The returned `Bool` records
whether a compilation happened. -/
def recompileOpenCLCode (inputDims : Nat) (inputType : DataType)
    (f : GaussianSmoothingFilter) : GaussianSmoothingFilter × Bool :=
  if inputDims = f.dimensionCLCodeCompiledFor ∧
      inputType = f.typeCLCodeCompiledFor then (f, false)
  else
    ({ f with dimensionCLCodeCompiledFor := inputDims
              typeCLCodeCompiledFor := inputType }, true)

/-- The observable actions of one `execute` call. -/
inductive ExecEv
  | outputCreated (w h : Nat)
  | maskComputed
  | kernelCompiled
  | hostDispatch
  | clDispatch
  | inputReleased
  | timestampBumped
deriving DecidableEq, Repr

/-- The metadata of the input frame resolved at the start of `execute`. -/
structure InputImage where
  width : Nat
  height : Nat
  dims : Nat
  dtype : DataType
  components : Nat
deriving DecidableEq, Repr

/-- `GaussianSmoothingFilter::execute`, with the resolved input frame
supplied by the environment.  If the input is invalid it throws; if the weak
output reference no longer resolves it returns immediately with no effect;
otherwise it initializes the output shape, runs `createMask`, dispatches on
the host or (after `recompileOpenCLCode`) on the device, releases a static
input's device retention, and bumps the output timestamp. -/
def execute (inp : InputImage) (f : GaussianSmoothingFilter) :
    GaussianSmoothingFilter × List ExecEv × Option FilterErr :=
  if !f.inputValid then (f, [], some FilterErr.missingInput)
  else if !f.outputAlive then (f, [], none)
  else
    let f₁ := { f with outWidth := inp.width, outHeight := inp.height }
    let evs₀ := [ExecEv.outputCreated inp.width inp.height]
    let m := createMask inp.dims f₁
    let evs₁ := evs₀ ++ (if m.2 then [ExecEv.maskComputed] else [])
    let r :=
      if f.deviceIsHost then (m.1, evs₁ ++ [ExecEv.hostDispatch])
      else
        let c := recompileOpenCLCode inp.dims inp.dtype m.1
        (c.1, evs₁ ++ (if c.2 then [ExecEv.kernelCompiled] else [])
                ++ [ExecEv.clDispatch])
    let r₂ :=
      if !f.inputIsDynamic then
        ({ r.1 with inputRetained := false }, r.2 ++ [ExecEv.inputReleased])
      else r
    (r₂.1, r₂.2 ++ [ExecEv.timestampBumped], none)

/-- Run `execute` `n` times on the same resolved input, collecting all
events (each pull on the output triggers at most one `execute`). -/
def executeN (inp : InputImage) (n : Nat) (f : GaussianSmoothingFilter) :
    GaussianSmoothingFilter × List ExecEv :=
  match n with
  | 0 => (f, [])
  | Nat.succ k =>
      let r := execute inp f
      let rest := executeN inp k r.1
      (rest.1, r.2.1 ++ rest.2)

/-- Number of mask recomputations in an event trace. -/
def countMask (evs : List ExecEv) : Nat :=
  evs.count ExecEv.maskComputed

/-- Number of kernel compilations in an event trace. -/
def countCompile (evs : List ExecEv) : Nat :=
  evs.count ExecEv.kernelCompiled

/-- One unnormalized 2-D Gaussian weight,
`exp(-(x*x+y*y)/(2*stdDev*stdDev))` (float arithmetic read in `ℝ`). -/
noncomputable def gaussianValue (stdDev : ℝ) (x y : ℤ) : ℝ :=
  Real.exp (-((x : ℝ) ^ 2 + (y : ℝ) ^ 2) / (2 * stdDev ^ 2))

/-- The normalization divisor of `createMask` in the 2-D case: the sum of
the unnormalized weights over the `maskSize × maskSize` window centred at
the origin (`halfSize = (maskSize-1)/2`). -/
noncomputable def gaussianMaskSum (maskSize : Nat) (stdDev : ℝ) : ℝ :=
  ∑ a ∈ Finset.range maskSize, ∑ b ∈ Finset.range maskSize,
    gaussianValue stdDev ((a : ℤ) - ((maskSize - 1) / 2 : Nat))
      ((b : ℤ) - ((maskSize - 1) / 2 : Nat))

/-- The normalized 2-D mask array built by `createMask`, indexed linearly:
entry `i` holds the weight at offset
`(i % maskSize - halfSize, i / maskSize - halfSize)`, divided by the sum of
all weights. -/
noncomputable def gaussianMask2D (maskSize : Nat) (stdDev : ℝ) (i : Nat) : ℝ :=
  gaussianValue stdDev ((i % maskSize : Nat) - ((maskSize - 1) / 2 : Nat) : ℤ)
      ((i / maskSize : Nat) - ((maskSize - 1) / 2 : Nat) : ℤ) /
    gaussianMaskSum maskSize stdDev

/-- `executeAlgorithmOnHost` in the 2-D case: linear buffers are functions
`Nat → ℝ`.  Each interior pixel `(x, y)` (with the full window in bounds)
receives the mask-weighted neighbourhood sum; all other entries keep the
initial contents `out₀` of the freshly created output buffer. -/
noncomputable def executeAlgorithmOnHost2D (w h : Nat) (mask : Nat → ℝ)
    (maskSize : Nat) (inputData out₀ : Nat → ℝ) : Nat → ℝ :=
  fun idx =>
    let half := (maskSize - 1) / 2
    let x := idx % w
    let y := idx / w
    if half ≤ x ∧ x < w - half ∧ half ≤ y ∧ y < h - half then
      ∑ b ∈ Finset.range maskSize, ∑ a ∈ Finset.range maskSize,
        mask (a + b * maskSize) * inputData ((x + a - half) + (y + b - half) * w)
    else out₀ idx

theorem mlookup_minsert_self {β : Type} (m : List (Nat × β)) (k : Nat) (v : β) :
    mlookup (minsert m k v) k = some v := by
  induction m with
  | nil => simp [minsert, mlookup]
  | cons p t ih =>
      by_cases h : p.1 = k
      · simp [minsert, mlookup, h]
      · simp [minsert, mlookup, h, ih]

theorem mlookup_minsert_ne {β : Type} (m : List (Nat × β)) (k k' : Nat) (v : β)
    (h : k' ≠ k) : mlookup (minsert m k v) k' = mlookup m k' := by
  induction m with
  | nil => simp [minsert, mlookup, Ne.symm h]
  | cons p t ih =>
      by_cases hp : p.1 = k
      · simp [minsert, mlookup, hp, Ne.symm h]
      · simp [minsert, mlookup, hp, ih]

theorem mem_minsert {β : Type} (m : List (Nat × β)) (k : Nat) (v : β)
    (p : Nat × β) (hp : p ∈ minsert m k v) : p = (k, v) ∨ p ∈ m := by
  induction m with
  | nil => simpa [minsert] using hp
  | cons q t ih =>
      by_cases hq : q.1 = k
      · simp only [minsert, hq, if_true, List.mem_cons] at hp
        rcases hp with h | h
        · exact Or.inl h
        · exact Or.inr (List.mem_cons_of_mem _ h)
      · simp only [minsert, hq, if_false, List.mem_cons] at hp
        rcases hp with h | h
        · exact Or.inr (h ▸ List.mem_cons_self _ _)
        · rcases ih h with h₁ | h₁
          · exact Or.inl h₁
          · exact Or.inr (List.mem_cons_of_mem _ h₁)

theorem manyTrue_minsert_true (m : List (Nat × Bool)) (k : Nat) :
    manyTrue (minsert m k true) = true := by
  induction m with
  | nil => simp [minsert, manyTrue]
  | cons p t ih =>
      by_cases h : p.1 = k
      · simp [minsert, manyTrue, h]
      · simp only [minsert, h, if_false, manyTrue, List.any_cons]
        simp only [manyTrue] at ih
        simp [ih]

theorem mem_msetAll {β : Type} (m : List (Nat × β)) (v : β) (p : Nat × β)
    (hp : p ∈ msetAll m v) : p.2 = v := by
  simp only [msetAll, List.mem_map] at hp
  rcases hp with ⟨q, _, hq⟩
  simp [← hq]

theorem mfindTrue_eq_none_iff (m : List (Nat × Bool)) :
    mfindTrue m = none ↔ manyTrue m = false := by
  induction m with
  | nil => simp [mfindTrue, manyTrue]
  | cons p t ih =>
      rcases p with ⟨k, b⟩
      cases b with
      | true => simp [mfindTrue, manyTrue, List.find?]
      | false =>
          simp only [mfindTrue, manyTrue, List.find?, List.any_cons] at *
          simp

theorem hasUpToDate_updateOpenCLImageData (d : Nat) (s : Image2D)
    (h : hasUpToDate s = true) :
    hasUpToDate (updateOpenCLImageData d s).1 = true := by
  unfold updateOpenCLImageData
  by_cases h₁ : mlookup s.clImagesIsUpToDate d = some true
  · simpa [h₁] using h
  · simp only [h₁, if_false]
    by_cases h₂ : (mlookup s.clImagesIsUpToDate d).isNone
    · simp only [h₂, if_true]
      by_cases h₃ : s.hostDataIsUpToDate
      · simp [hasUpToDate, h₃]
      · simp only [hasUpToDate, h₃, Bool.false_or] at *
        have hm := manyTrue_minsert_true s.clImagesIsUpToDate d
        rcases hfind : mfindTrue (minsert s.clImagesIsUpToDate d true) with _ | src
        · rw [mfindTrue_eq_none_iff] at hfind
          rw [hm] at hfind
          exact absurd hfind (by simp)
        · simp [hfind, hm, h₃]
    · simp only [h₂, if_false]
      by_cases h₃ : s.hostDataIsUpToDate
      · simp [hasUpToDate, h₃]
      · rcases hfind : mfindTrue s.clImagesIsUpToDate with _ | src
        · simpa [hfind, h₃] using h
        · simp [hfind, h₃, hasUpToDate]

theorem hasUpToDate_updateHostData (s : Image2D)
    (h : hasUpToDate s = true) :
    hasUpToDate (updateHostData s).1 = true := by
  unfold updateHostData
  by_cases h₁ : s.hostDataIsUpToDate
  · simpa [h₁] using h
  · have hany : manyTrue s.clImagesIsUpToDate = true := by
      simpa [hasUpToDate, h₁] using h
    simp only [h₁, if_false]
    by_cases h₂ : s.hostHasData <;>
      by_cases h₃ : s.clImages.isEmpty <;>
        rcases hfind : mfindTrue s.clImagesIsUpToDate with _ | src <;>
          simp [h₂, h₃, hfind, hasUpToDate, hany]

theorem hasUpToDate_openCLAccessCore (d : Nat) (s : Image2D)
    (h : hasUpToDate s = true) :
    hasUpToDate (openCLAccessCore d s).1 = true := by
  unfold openCLAccessCore
  have hacc : hasUpToDate
      { s with clImagesAccess := minsert s.clImagesAccess d true } = true := h
  have hupd := hasUpToDate_updateOpenCLImageData d _ hacc
  rcases hr : updateOpenCLImageData d
      { s with clImagesAccess := minsert s.clImagesAccess d true } with ⟨s₂, evs, err⟩
  rw [hr] at hupd
  simp only [hr]
  cases err with
  | some e => exact hupd
  | none =>
      rcases hi : mlookup s₂.clImages d with _ | img
      · simp only [hi]
        simpa [hasUpToDate] using hupd
      · simp only [hi]
        exact hupd

theorem hasUpToDate_hostAccessCore (s : Image2D)
    (h : hasUpToDate s = true) :
    hasUpToDate (hostAccessCore s).1 = true := by
  unfold hostAccessCore
  have hupd := hasUpToDate_updateHostData s h
  rcases hr : updateHostData s with ⟨s₁, evs, err⟩
  rw [hr] at hupd
  cases err with
  | some e => exact hupd
  | none => exact hupd

theorem hasUpToDate_stepOp (op : CoherenceOp) (s : Image2D)
    (h : hasUpToDate s = true) : hasUpToDate (stepOp op s) = true := by
  cases op with
  | hostAcquire t =>
      cases t with
      | read => exact hasUpToDate_hostAccessCore s h
      | readWrite =>
          simp only [stepOp, getImageAccess]
          by_cases hb : isAnyDataBeingAccessed s
          · simpa [hb] using h
          · simp only [hb, Bool.false_eq_true, if_false]
            refine hasUpToDate_hostAccessCore _ ?_
            simp [hasUpToDate]
  | clAcquire t d =>
      cases t with
      | read => exact hasUpToDate_openCLAccessCore d s h
      | readWrite =>
          simp only [stepOp, getOpenCLImageAccess]
          by_cases hb : isAnyDataBeingAccessed s
          · simpa [hb] using h
          · simp only [hb, Bool.false_eq_true, if_false]
            refine hasUpToDate_openCLAccessCore _ _ ?_
            simp [hasUpToDate, setAllDataToOutOfDate, manyTrue_minsert_true]
  | hostRelease => simpa [stepOp, releaseHostAccess, hasUpToDate] using h
  | clRelease d => simpa [stepOp, releaseCLAccess, hasUpToDate] using h

theorem hasUpToDate_runOps (ops : List CoherenceOp) (s : Image2D)
    (h : hasUpToDate s = true) : hasUpToDate (runOps ops s) = true := by
  induction ops generalizing s with
  | nil => simpa [runOps] using h
  | cons op t ih =>
      simp only [runOps, List.foldl_cons]
      exact ih _ (hasUpToDate_stepOp op s h)

theorem allFalse_of_not_manyTrue (m : List (Nat × Bool))
    (hm : manyTrue m = false) : ∀ p ∈ m, p.2 = false := by
  intro p hp
  by_contra hne
  have hp2 : p.2 = true := by
    cases hb : p.2
    · exact absurd hb hne
    · rfl
  have : manyTrue m = true := by
    simp only [manyTrue, List.any_eq_true]
    exact ⟨p, hp, hp2⟩
  rw [this] at hm
  exact absurd hm (by simp)

/-- A concrete image whose host copy is locked for access. -/
def busyImage : Image2D :=
  { imageNew with hostDataIsBeingAccessed := true }

/-- C1: for every initialized data object and every finite sequence of
`acquireAccess` calls and releases, the set of up-to-date locations is never
empty once the object has been initialized by `create`.  FALSE as stated:
`createImage` on the host without initial data initializes the object
(`mHostHasData = true`) but marks no location up to date. -/
theorem C1_counterexample :
    isInitialized (createImage 4 4 DataType.tFloat 1 true 0 imageNew).1 = true ∧
    hasUpToDate (createImage 4 4 DataType.tFloat 1 true 0 imageNew).1 = false := by
  decide

/-- C1 (amended): once at least one location is up to date — which holds
after `createImage` with initial data on the host and after `createImage`
targeting a device, though not after a host create without initial data —
every finite sequence of `acquireAccess` calls and releases preserves it:
the set of up-to-date locations never becomes empty. -/
theorem C1_coherence_preserved (w h n d : Nat) (ty : DataType)
    (s : Image2D) (ops : List CoherenceOp)
    (hinit : hasUpToDate s = true) :
    hasUpToDate (runOps ops s) = true ∧
    hasUpToDate (createImageWithData w h ty n true d imageNew).1 = true ∧
    hasUpToDate (createImage w h ty n false d imageNew).1 = true := by
  refine ⟨hasUpToDate_runOps ops s hinit, ?_, ?_⟩
  · simp [createImageWithData, imageNew, isInitialized, hasUpToDate]
  · simp [createImage, imageNew, isInitialized, hasUpToDate, minsert, manyTrue]

/-- Witness for C1: a host create with initial data followed by a read and
a read-write access keeps the up-to-date set nonempty. -/
theorem C1_witness :
    hasUpToDate (runOps
      [CoherenceOp.hostAcquire AccessType.read, CoherenceOp.hostRelease,
       CoherenceOp.clAcquire AccessType.readWrite 0]
      (createImageWithData 4 4 DataType.tFloat 1 true 0 imageNew).1) = true :=
  (C1_coherence_preserved 4 4 1 0 DataType.tFloat
    (createImageWithData 4 4 DataType.tFloat 1 true 0 imageNew).1
    [CoherenceOp.hostAcquire AccessType.read, CoherenceOp.hostRelease,
     CoherenceOp.clAcquire AccessType.readWrite 0] (by decide)).1

/-- C2: requesting ReadWrite access while any location is locked fails with
a ConcurrentAccessViolation and changes nothing; requesting it with nothing
locked succeeds, invalidates every other location's upToDate flag, and
marks only the target location up to date and locked. -/
theorem C2_readWrite_exclusive (s : Image2D) (d : Nat) :
    (isAnyDataBeingAccessed s = true →
      getOpenCLImageAccess AccessType.readWrite d s =
        (s, none, [], some AccessErr.concurrentAccessViolation) ∧
      getImageAccess AccessType.readWrite s =
        (s, none, [], some AccessErr.concurrentAccessViolation)) ∧
    (isAnyDataBeingAccessed s = false →
      ((getOpenCLImageAccess AccessType.readWrite d s).2.2.2 = none ∧
       (getOpenCLImageAccess AccessType.readWrite d s).1.hostDataIsUpToDate = false ∧
       mlookup (getOpenCLImageAccess AccessType.readWrite d s).1.clImagesIsUpToDate d
         = some true ∧
       (∀ p ∈ (getOpenCLImageAccess AccessType.readWrite d s).1.clImagesIsUpToDate,
         p.1 ≠ d → p.2 = false) ∧
       mlookup (getOpenCLImageAccess AccessType.readWrite d s).1.clImagesAccess d
         = some true ∧
       (getOpenCLImageAccess AccessType.readWrite d s).1.hostDataIsBeingAccessed = false ∧
       (∀ p ∈ (getOpenCLImageAccess AccessType.readWrite d s).1.clImagesAccess,
         p.1 ≠ d → p.2 = false)) ∧
      ((getImageAccess AccessType.readWrite s).2.2.2 = none ∧
       (getImageAccess AccessType.readWrite s).1.hostDataIsUpToDate = true ∧
       (getImageAccess AccessType.readWrite s).1.hostDataIsBeingAccessed = true ∧
       (∀ p ∈ (getImageAccess AccessType.readWrite s).1.clImagesIsUpToDate,
         p.2 = false))) := by
  constructor
  · intro hb
    constructor
    · simp [getOpenCLImageAccess, hb]
    · simp [getImageAccess, hb]
  · intro hb
    have hacc : ∀ p ∈ s.clImagesAccess, p.2 = false := by
      refine allFalse_of_not_manyTrue _ ?_
      rcases hm : manyTrue s.clImagesAccess with _ | _
      · rfl
      · exfalso
        have : isAnyDataBeingAccessed s = true := by
          simp [isAnyDataBeingAccessed, hm]
        rw [this] at hb
        exact absurd hb (by simp)
    have hhost : s.hostDataIsBeingAccessed = false := by
      rcases hh : s.hostDataIsBeingAccessed with _ | _
      · rfl
      · exfalso
        have : isAnyDataBeingAccessed s = true := by
          simp [isAnyDataBeingAccessed, hh]
        rw [this] at hb
        exact absurd hb (by simp)
    constructor
    · rcases hi : mlookup s.clImages d with _ | img <;>
        (refine ⟨?_, ?_, ?_, ?_, ?_, ?_, ?_⟩ <;>
          simp [getOpenCLImageAccess, hb, openCLAccessCore,
            updateOpenCLImageData, mlookup_minsert_self, hi,
            setAllDataToOutOfDate, hhost]) <;>
        (intro a ha
         rcases mem_minsert _ _ _ _ ha with h₁ | h₁
         · exact congrArg Prod.fst h₁
         · first
           | exact absurd (mem_msetAll _ _ _ h₁) (by simp)
           | exact absurd (hacc _ h₁) (by simp))
    · (refine ⟨?_, ?_, ?_, ?_⟩ <;>
        simp [getImageAccess, hb, hostAccessCore, updateHostData,
          setAllDataToOutOfDate]) <;>
      (intro a ha
       exact absurd (mem_msetAll _ _ _ ha) (by simp))

/-- Witness for C2: on a locked object the write request fails unchanged;
on a fresh object it succeeds. -/
theorem C2_witness :
    getImageAccess AccessType.readWrite busyImage =
      (busyImage, none, [], some AccessErr.concurrentAccessViolation) ∧
    (getOpenCLImageAccess AccessType.readWrite 0 imageNew).2.2.2 = none :=
  ⟨((C2_readWrite_exclusive busyImage 0).1 (by decide)).2,
   (((C2_readWrite_exclusive imageNew 0).2 (by decide)).1).1⟩

/-- A wired filter whose output weak reference no longer resolves. -/
def fDead : GaussianSmoothingFilter :=
  { filterNew true with inputValid := true, outputAlive := false }

/-- The resolved 4×4 single-channel 2-D float frame. -/
def inp₀ : InputImage :=
  { width := 4, height := 4, dims := 2, dtype := DataType.tFloat, components := 1 }

/-- C5: if the output weak reference no longer resolves, `execute` performs
no computation and changes no state: no events at all (no mask creation, no
kernel compilation, no dispatch, no timestamp bump, no input release) and
the filter state is returned unchanged. -/
theorem C5_skip_dead_output (inp : InputImage) (f : GaussianSmoothingFilter)
    (h₁ : f.inputValid = true) (h₂ : f.outputAlive = false) :
    execute inp f = (f, [], none) := by
  simp [execute, h₁, h₂]

/-- Witness for C5 at a concrete dead-output filter. -/
theorem C5_witness : execute inp₀ fDead = (fDead, [], none) :=
  C5_skip_dead_output inp₀ fDead (by decide) (by decide)

/-- A wired filter whose output has been handed over and then dropped. -/
def fExpired : GaussianSmoothingFilter :=
  { filterNew true with inputValid := true
                        tempOutputValid := false
                        outputAlive := false }

/-- C7: the claim says a subsequent `getOutput` call fails with
OutputExpired when nobody retained the output.  FALSE: the code returns the
weak reference resolved to an invalid (null) pointer without raising any
error. -/
theorem C7_counterexample :
    getOutput fExpired = (fExpired, some OutputHandle.weakInvalid, none) := by
  decide

/-- C7 (amended): `getOutput` fails if no input has been bound; otherwise
the first call hands over single ownership of the freshly created output
placeholder (dropping the internal strong reference), and every subsequent
call returns the weak reference resolved — to the retained object if one
exists, or to an invalid (null) pointer if nobody retained it, in which
case no error is raised. -/
theorem C7_getOutput_behavior (f : GaussianSmoothingFilter) :
    (f.inputValid = false → getOutput f = (f, none, some FilterErr.missingInput)) ∧
    (f.inputValid = true → f.tempOutputValid = true →
      getOutput f =
        ({ f with tempOutputValid := false }, some OutputHandle.ownedNew, none)) ∧
    (f.inputValid = true → f.tempOutputValid = false → f.outputAlive = true →
      getOutput f = (f, some OutputHandle.weakValid, none)) ∧
    (f.inputValid = true → f.tempOutputValid = false → f.outputAlive = false →
      getOutput f = (f, some OutputHandle.weakInvalid, none)) := by
  refine ⟨?_, ?_, ?_, ?_⟩
  · intro h₁; simp [getOutput, h₁]
  · intro h₁ h₂; simp [getOutput, h₁, h₂]
  · intro h₁ h₂ h₃; simp [getOutput, h₁, h₂, h₃]
  · intro h₁ h₂ h₃; simp [getOutput, h₁, h₂, h₃]

/-- A freshly constructed host filter with a static input bound. -/
def fWired : GaussianSmoothingFilter := setInput false (filterNew true)

/-- Witness for C7: an unwired filter fails, a freshly wired one hands over
ownership. -/
theorem C7_witness :
    getOutput (filterNew true) =
      (filterNew true, none, some FilterErr.missingInput) ∧
    getOutput fWired =
      ({ fWired with tempOutputValid := false },
       some OutputHandle.ownedNew, none) :=
  ⟨(C7_getOutput_behavior (filterNew true)).1 (by decide),
   (C7_getOutput_behavior fWired).2.1 (by decide) (by decide)⟩

/-- C8: setting the mask size to an even value fails with InvalidParameter,
setting the standard deviation to a value ≤ 0 fails with InvalidParameter,
and in every failure case the filter state is returned unchanged. -/
theorem C8_setter_validation (f : GaussianSmoothingFilter) (n : Nat) (v : ℚ)
    (hn : n % 2 = 0) (hv : v ≤ 0) :
    setMaskSize n f = (f, some FilterErr.invalidParameter) ∧
    setStandardDeviation v f = (f, some FilterErr.invalidParameter) := by
  constructor
  · have h : n % 2 ≠ 1 := by omega
    simp [setMaskSize, h]
  · simp [setStandardDeviation, hv]

/-- Witness for C8 at mask size 4 and standard deviation -1. -/
theorem C8_witness :
    setMaskSize 4 (filterNew true) =
      (filterNew true, some FilterErr.invalidParameter) ∧
    setStandardDeviation (-1) (filterNew true) =
      (filterNew true, some FilterErr.invalidParameter) :=
  C8_setter_validation (filterNew true) 4 (-1) (by decide) (by norm_num)

/-- C10: for an OpenCL device that has never touched the image, acquiring
ReadWrite access marks the device's upToDate entry true before the
allocation check in `updateOpenCLImageData` runs, so that check returns
immediately: no device image is allocated, no transfer is issued, and the
returned accessor holds the default-inserted null image handle. -/
theorem C10_fresh_device_write_null_handle (s : Image2D) (d : Nat)
    (h₁ : mlookup s.clImagesIsUpToDate d = none)
    (h₂ : mlookup s.clImages d = none)
    (h₃ : isAnyDataBeingAccessed s = false) :
    (getOpenCLImageAccess AccessType.readWrite d s).2.2.2 = none ∧
    (getOpenCLImageAccess AccessType.readWrite d s).2.1 =
      some { imageValid := false } ∧
    mlookup (getOpenCLImageAccess AccessType.readWrite d s).1.clImages d =
      some false ∧
    mlookup (getOpenCLImageAccess AccessType.readWrite d s).1.clImagesIsUpToDate d
      = some true ∧
    (getOpenCLImageAccess AccessType.readWrite d s).2.2.1 = [] := by
  refine ⟨?_, ?_, ?_, ?_, ?_⟩ <;>
    simp [getOpenCLImageAccess, h₂, h₃, openCLAccessCore, updateOpenCLImageData,
      mlookup_minsert_self, setAllDataToOutOfDate]

/-- Witness for C10 on a fresh image and device 0. -/
theorem C10_witness :
    (getOpenCLImageAccess AccessType.readWrite 0 imageNew).2.1 =
      some { imageValid := false } :=
  (C10_fresh_device_write_null_handle imageNew 0 (by decide) (by decide)
    (by decide)).2.1

theorem manyTrue_of_mfindTrue_some (m : List (Nat × Bool)) (src : Nat)
    (hf : mfindTrue m = some src) : manyTrue m = true := by
  rcases hmt : manyTrue m with _ | _
  · rw [(mfindTrue_eq_none_iff m).mpr hmt] at hf
    exact absurd hf (by simp)
  · rfl

theorem openCLAccessCore_err (d : Nat) (s : Image2D) :
    (openCLAccessCore d s).2.2.2 =
      (updateOpenCLImageData d
        { s with clImagesAccess := minsert s.clImagesAccess d true }).2.2 := by
  unfold openCLAccessCore
  rcases hr : updateOpenCLImageData d
      { s with clImagesAccess := minsert s.clImagesAccess d true } with ⟨s₂, evs, err⟩
  try simp only [hr]
  cases err with
  | some e => rfl
  | none => rcases hi : mlookup s₂.clImages d with _ | img <;> simp [hi]

theorem hostAccessCore_err (s : Image2D) :
    (hostAccessCore s).2.2.2 = (updateHostData s).2.2 := by
  unfold hostAccessCore
  rcases hr : updateHostData s with ⟨s₁, evs, err⟩
  try simp only [hr]
  cases err with
  | some e => rfl
  | none => rfl

theorem updateOpenCLImageData_err (d : Nat) (s : Image2D) :
    ((updateOpenCLImageData d s).2.2 = some AccessErr.coherenceViolation ↔
      mlookup s.clImagesIsUpToDate d = some false ∧
        s.hostDataIsUpToDate = false ∧
        manyTrue s.clImagesIsUpToDate = false) := by
  unfold updateOpenCLImageData
  rcases hd : mlookup s.clImagesIsUpToDate d with _ | b
  · by_cases hh : s.hostDataIsUpToDate
    · simp [hd, hh]
    · rcases hf : mfindTrue (minsert s.clImagesIsUpToDate d true) with _ | src
      · exfalso
        rw [mfindTrue_eq_none_iff, manyTrue_minsert_true] at hf
        exact absurd hf (by simp)
      · simp [hd, hh, hf]
  · cases b
    · by_cases hh : s.hostDataIsUpToDate
      · simp [hd, hh]
      · rcases hf : mfindTrue s.clImagesIsUpToDate with _ | src
        · have hm := (mfindTrue_eq_none_iff _).mp hf
          simp [hd, hh, hf, hm]
        · have hm := manyTrue_of_mfindTrue_some _ _ hf
          simp [hd, hh, hf, hm]
    · simp [hd]

theorem updateHostData_err (s : Image2D) :
    ((updateHostData s).2.2 = some AccessErr.coherenceViolation ↔
      s.hostDataIsUpToDate = false ∧ s.clImages.isEmpty = false ∧
        manyTrue s.clImagesIsUpToDate = false) := by
  unfold updateHostData
  by_cases hh : s.hostDataIsUpToDate
  · simp [hh]
  · by_cases hcd : s.hostHasData <;>
      by_cases he : s.clImages.isEmpty <;>
        rcases hf : mfindTrue s.clImagesIsUpToDate with _ | src <;>
          first
          | simp [hh, hcd, he, hf, (mfindTrue_eq_none_iff _).mp hf]
          | simp [hh, hcd, he, hf, manyTrue_of_mfindTrue_some _ _ hf]

/-- C3: the claim says every access request raised a CoherenceViolation
exactly when no location is up to date at refresh time.  FALSE: after a
host `createImage` without initial data, no location is up to date, yet a
host read access completes without any error (the no-source check is
skipped when no device image exists). -/
theorem C3_counterexample :
    hasUpToDate (createImage 4 4 DataType.tFloat 1 true 0 imageNew).1 = false ∧
    (getImageAccess AccessType.read
      (createImage 4 4 DataType.tFloat 1 true 0 imageNew).1).2.2.2 = none := by
  decide

/-- C3 (amended): a read access raises CoherenceViolation exactly when no
location is up to date AND the stale target already exists — for a device
target, the device has an existing stale entry (first touch of a new device
is pre-marked up to date on creation and never raises it); for the host
target, at least one device image exists (a host read with no device images
silently serves the stale buffer).  ReadWrite access never raises
CoherenceViolation, because it marks its own target up to date first. -/
theorem C3_coherence_error_characterization (s : Image2D) (d : Nat) :
    ((getOpenCLImageAccess AccessType.read d s).2.2.2 =
        some AccessErr.coherenceViolation ↔
      mlookup s.clImagesIsUpToDate d = some false ∧
        s.hostDataIsUpToDate = false ∧
        manyTrue s.clImagesIsUpToDate = false) ∧
    ((getImageAccess AccessType.read s).2.2.2 =
        some AccessErr.coherenceViolation ↔
      s.hostDataIsUpToDate = false ∧ s.clImages.isEmpty = false ∧
        manyTrue s.clImagesIsUpToDate = false) ∧
    (getOpenCLImageAccess AccessType.readWrite d s).2.2.2 ≠
      some AccessErr.coherenceViolation ∧
    (getImageAccess AccessType.readWrite s).2.2.2 ≠
      some AccessErr.coherenceViolation := by
  refine ⟨?_, ?_, ?_, ?_⟩
  · rw [show getOpenCLImageAccess AccessType.read d s = openCLAccessCore d s
      from rfl, openCLAccessCore_err]
    exact updateOpenCLImageData_err d _
  · rw [show getImageAccess AccessType.read s = hostAccessCore s from rfl,
      hostAccessCore_err]
    exact updateHostData_err s
  · by_cases hb : isAnyDataBeingAccessed s
    · simp [getOpenCLImageAccess, hb]
    · simp only [getOpenCLImageAccess, hb, Bool.false_eq_true, if_false]
      intro hcontra
      rw [openCLAccessCore_err, updateOpenCLImageData_err] at hcontra
      simp [mlookup_minsert_self] at hcontra
  · by_cases hb : isAnyDataBeingAccessed s
    · simp [getImageAccess, hb]
    · simp only [getImageAccess, hb, Bool.false_eq_true, if_false]
      intro hcontra
      rw [hostAccessCore_err, updateHostData_err] at hcontra
      simp at hcontra

/-- An image whose only device entry is stale while nothing at all is up
to date (the situation the CoherenceViolation check is meant to catch). -/
def orphanedImage : Image2D :=
  { imageNew with hostHasData := true
                  clImages := [(0, true)]
                  clImagesIsUpToDate := [(0, false)]
                  clImagesAccess := [(0, false)] }

/-- Witness for C3: with an existing stale device entry and no up-to-date
location anywhere, the device read access raises CoherenceViolation. -/
theorem C3_witness :
    (getOpenCLImageAccess AccessType.read 0 orphanedImage).2.2.2 =
      some AccessErr.coherenceViolation :=
  ((C3_coherence_error_characterization orphanedImage 0).1).mpr (by decide)

/-- A device entry that exists but is stale, with the host up to date. -/
def staleDevImage : Image2D :=
  { imageNew with hostDataIsUpToDate := true
                  clImages := [(0, true)]
                  clImagesIsUpToDate := [(0, false)]
                  clImagesAccess := [(0, false)] }

/-- A stale host copy with one up-to-date device image. -/
def staleHostImage : Image2D :=
  { imageNew with hostHasData := true
                  clImages := [(0, true)]
                  clImagesIsUpToDate := [(0, true)]
                  clImagesAccess := [(0, false)] }

/-- C4: read access at a stale location.  The code transfers content from
an up-to-date location (host→device for a stale device entry, device→host
for a stale host copy), as claimed, but — contradicting both the claim and
the source's own comment "Now it is guaranteed that the data is on the
device and that it is up to date" — a pre-existing stale device entry's
upToDate flag is left false, and a host read sets neither the host upToDate
flag nor the host locked flag. -/
theorem C4_stale_read_eval :
    (getOpenCLImageAccess AccessType.read 0 staleDevImage).2.2.1 =
      [TransferEv.writeImage 0] ∧
    (getOpenCLImageAccess AccessType.read 0 staleDevImage).2.2.2 = none ∧
    mlookup (getOpenCLImageAccess AccessType.read 0 staleDevImage).1.clImagesIsUpToDate 0
      = some false ∧
    mlookup (getOpenCLImageAccess AccessType.read 0 staleDevImage).1.clImagesAccess 0
      = some true ∧
    (getImageAccess AccessType.read staleHostImage).2.2.1 =
      [TransferEv.readImage 0] ∧
    (getImageAccess AccessType.read staleHostImage).2.2.2 = none ∧
    (getImageAccess AccessType.read staleHostImage).1.hostDataIsUpToDate = false ∧
    (getImageAccess AccessType.read staleHostImage).1.hostDataIsBeingAccessed = false := by
  decide

theorem execute_fields (inp : InputImage) (f : GaussianSmoothingFilter)
    (hIn : f.inputValid = true) (hAlive : f.outputAlive = true) :
    countMask (execute inp f).2.1 = (if f.recreateMask then 1 else 0) ∧
    countCompile (execute inp f).2.1 =
      (if f.deviceIsHost then 0
       else if inp.dims = f.dimensionCLCodeCompiledFor ∧
           inp.dtype = f.typeCLCodeCompiledFor then 0 else 1) ∧
    (execute inp f).1.inputValid = true ∧
    (execute inp f).1.outputAlive = true ∧
    (execute inp f).1.deviceIsHost = f.deviceIsHost ∧
    (execute inp f).1.recreateMask = false ∧
    (f.deviceIsHost = false →
      (execute inp f).1.dimensionCLCodeCompiledFor = inp.dims ∧
      (execute inp f).1.typeCLCodeCompiledFor = inp.dtype) := by
  unfold execute createMask recompileOpenCLCode
  by_cases hm : f.recreateMask <;>
    by_cases hd : f.deviceIsHost <;>
      by_cases hs : inp.dims = f.dimensionCLCodeCompiledFor ∧
          inp.dtype = f.typeCLCodeCompiledFor <;>
        by_cases hdyn : f.inputIsDynamic <;>
          simp [hIn, hAlive, hm, hd, hs, hdyn, countMask, countCompile,
            List.count_append, List.count_cons]

theorem executeN_steady (inp : InputImage) (n : Nat)
    (f : GaussianSmoothingFilter)
    (hIn : f.inputValid = true) (hAlive : f.outputAlive = true)
    (hMask : f.recreateMask = false)
    (hSig : f.deviceIsHost = false →
      inp.dims = f.dimensionCLCodeCompiledFor ∧
      inp.dtype = f.typeCLCodeCompiledFor) :
    countMask (executeN inp n f).2 = 0 ∧
    countCompile (executeN inp n f).2 = 0 := by
  induction n generalizing f with
  | zero => simp [executeN, countMask, countCompile]
  | succ k ih =>
      obtain ⟨h₁, h₂, h₃, h₄, h₅, h₆, h₇⟩ := execute_fields inp f hIn hAlive
      have hrec := ih (execute inp f).1 h₃ h₄ h₆ (by
        intro hdf
        rw [h₅] at hdf
        obtain ⟨ha, hb⟩ := h₇ hdf
        exact ⟨ha.symm, hb.symm⟩)
      have hone₁ : countMask (execute inp f).2.1 = 0 := by
        rw [h₁, hMask]
        simp
      have hone₂ : countCompile (execute inp f).2.1 = 0 := by
        rw [h₂]
        by_cases hdf : f.deviceIsHost
        · simp [hdf]
        · have hss := hSig (by
            rcases hx : f.deviceIsHost with _ | _
            · rfl
            · exact absurd hx hdf)
          simp [hdf, hss]
      constructor
      · simp only [executeN, countMask, List.count_append]
        simp only [countMask] at hone₁ hrec
        rw [hone₁, hrec.1]
      · simp only [executeN, countCompile, List.count_append]
        simp only [countCompile] at hone₂ hrec
        rw [hone₂, hrec.2]

/-- A wired device-target filter whose kernel is already compiled for a
2-D float input, with the recreate-mask flag set (as after a parameter
change). -/
def fCompiled : GaussianSmoothingFilter :=
  { filterNew false with inputValid := true
                         outputAlive := true
                         dimensionCLCodeCompiledFor := 2 }

/-- C6: the claim says that after a parameter change, pulling repeatedly
recomputes the mask exactly once AND recompiles the device kernel exactly
once.  FALSE for the kernel: if the kernel was already compiled for the
input's dimensionality and element type, a parameter change does not
change the signature and two pulls trigger zero recompilations. -/
theorem C6_counterexample :
    fCompiled.recreateMask = true ∧
    countMask (executeN inp₀ 2 fCompiled).2 = 1 ∧
    countCompile (executeN inp₀ 2 fCompiled).2 = 0 := by
  decide

/-- C6 (amended): after a parameter change (recreate-mask flag set),
pulling the output any number of times without further changes recomputes
the derived mask exactly once; the device kernel is recompiled exactly once
if the input's dimensionality or element type differs from the
last-compiled signature and zero times if they match.  `createMask` is a
no-op whenever the recreate-mask flag is clear, always leaves the flag
clear when it returns, and `recompileOpenCLCode` is a no-op whenever the
input's dimensionality and element type equal the last-compiled
signature. -/
theorem C6_idempotent_caching (f : GaussianSmoothingFilter)
    (inp : InputImage) (n : Nat)
    (hIn : f.inputValid = true) (hAlive : f.outputAlive = true)
    (hMask : f.recreateMask = true) (hDev : f.deviceIsHost = false) :
    countMask (executeN inp (n + 1) f).2 = 1 ∧
    countCompile (executeN inp (n + 1) f).2 =
      (if inp.dims = f.dimensionCLCodeCompiledFor ∧
          inp.dtype = f.typeCLCodeCompiledFor then 0 else 1) ∧
    (∀ g : GaussianSmoothingFilter, g.recreateMask = false →
      createMask inp.dims g = (g, false)) ∧
    (∀ g : GaussianSmoothingFilter, (createMask inp.dims g).1.recreateMask = false) ∧
    (∀ g : GaussianSmoothingFilter,
      inp.dims = g.dimensionCLCodeCompiledFor →
      inp.dtype = g.typeCLCodeCompiledFor →
      recompileOpenCLCode inp.dims inp.dtype g = (g, false)) := by
  obtain ⟨h₁, h₂, h₃, h₄, h₅, h₆, h₇⟩ := execute_fields inp f hIn hAlive
  have hrest := executeN_steady inp n (execute inp f).1 h₃ h₄ h₆ (by
    intro hdf
    rw [h₅] at hdf
    obtain ⟨ha, hb⟩ := h₇ hdf
    exact ⟨ha.symm, hb.symm⟩)
  refine ⟨?_, ?_, ?_, ?_, ?_⟩
  · simp only [executeN, countMask, List.count_append]
    simp only [countMask] at h₁ hrest
    rw [h₁, hrest.1, hMask]
    simp
  · simp only [executeN, countCompile, List.count_append]
    simp only [countCompile] at h₂ hrest
    rw [h₂, hrest.2, hDev]
    simp
  · intro g hg
    simp [createMask, hg]
  · intro g
    by_cases hg : g.recreateMask <;> simp [createMask, hg]
  · intro g hgd hgt
    simp [recompileOpenCLCode, hgd, hgt]

/-- A wired device-target filter fresh from construction (nothing compiled
yet). -/
def fWiredCL : GaussianSmoothingFilter :=
  { filterNew false with inputValid := true
                         outputAlive := true }

/-- Witness for C6: a fresh device filter pulled twice computes the mask
exactly once. -/
theorem C6_witness :
    countMask (executeN inp₀ 2 fWiredCL).2 = 1 :=
  (C6_idempotent_caching fWiredCL inp₀ 1 (by decide) (by decide) (by decide)
    (by decide)).1

theorem sum_range3_linear (g : Nat → ℝ) :
    (∑ b ∈ Finset.range 3, ∑ a ∈ Finset.range 3, g (a + b * 3)) =
      ∑ i ∈ Finset.range 9, g i := by
  simp [Finset.sum_range_succ]
  ring

theorem gaussianMaskSum_pos : 0 < gaussianMaskSum 3 1 := by
  unfold gaussianMaskSum
  refine Finset.sum_pos (fun a _ => ?_) ⟨0, by norm_num⟩
  refine Finset.sum_pos (fun b _ => ?_) ⟨0, by norm_num⟩
  exact Real.exp_pos _

theorem gaussianMask2D_sum_nine :
    (∑ i ∈ Finset.range 9, gaussianMask2D 3 1 i) = 1 := by
  have hne : gaussianMaskSum 3 1 ≠ 0 := ne_of_gt gaussianMaskSum_pos
  unfold gaussianMask2D
  rw [← Finset.sum_div, div_eq_one_iff_eq hne]
  unfold gaussianMaskSum
  simp [Finset.sum_range_succ]
  ring

/-- A wired host-target filter fresh from construction. -/
def fHost : GaussianSmoothingFilter :=
  { filterNew true with inputValid := true
                        outputAlive := true }

/-- C9: a 4×4 single-channel float image filled with the constant 1.0,
smoothed on the host with mask size 3 and standard deviation 1.0: the
output keeps the 4×4 dimensions; the recomputed mask is normalized so its
entries sum to 1; and every interior pixel (the full 3×3 window in bounds)
of the smoothed image equals 1. -/
theorem C9_uniform_field (x y : Nat) (out₀ : Nat → ℝ)
    (hx₁ : 1 ≤ x) (hx₂ : x < 3) (hy₁ : 1 ≤ y) (hy₂ : y < 3) :
    (execute inp₀ fHost).1.outWidth = 4 ∧
    (execute inp₀ fHost).1.outHeight = 4 ∧
    (∑ i ∈ Finset.range 9, gaussianMask2D 3 1 i) = 1 ∧
    executeAlgorithmOnHost2D 4 4 (gaussianMask2D 3 1) 3 (fun _ => (1 : ℝ))
      out₀ (x + y * 4) = 1 := by
  refine ⟨by decide, by decide, gaussianMask2D_sum_nine, ?_⟩
  have hmod : (x + y * 4) % 4 = x := by omega
  have hdiv : (x + y * 4) / 4 = y := by omega
  unfold executeAlgorithmOnHost2D
  simp only [hmod, hdiv]
  split
  · simp only [mul_one]
    rw [sum_range3_linear]
    exact gaussianMask2D_sum_nine
  · rename_i hcond
    exfalso
    apply hcond
    refine ⟨by omega, by omega, by omega, by omega⟩

/-- Witness for C9 at interior pixel (1,1). -/
theorem C9_witness :
    executeAlgorithmOnHost2D 4 4 (gaussianMask2D 3 1) 3 (fun _ => (1 : ℝ))
      (fun _ => 0) (1 + 1 * 4) = 1 :=
  (C9_uniform_field 1 1 (fun _ => 0) (by decide) (by decide) (by decide)
    (by decide)).2.2.2

end FAST
